import Mathlib

/-!
A shallow embedding of the transport layer in amqpstorm/io.py.

The Python code interacts with the operating system through a socket and
the select call.  We model each OS interaction by an explicit event drawn
from a trace supplied as input: each iteration of a loop consumes the next
event, which records what the corresponding system call did (how many
bytes send accepted, which exception it raised, whether select reported
readiness, what recv returned, ...).  Python-level state that the code
reads or writes (the socket reference, the error sink, the running flag,
the inbound buffer) is passed explicitly.

The error sink (the exceptions list handed to the constructor, default
None) is modelled by a flag hasSink plus the current list of entries;
appending to a missing sink is the raised outcome, matching the
AttributeError a None sink produces in Python.
-/

namespace AMQP

/-- Linux errno value shared by EWOULDBLOCK and EAGAIN. -/
def EWOULDBLOCK : Nat := 11

/-- Linux errno value shared by EWOULDBLOCK and EAGAIN. -/
def EAGAIN : Nat := 11

/-- The first argument args[0] of a raised socket.error / OSError: either a
plain message string, as in socket.error("connection/socket error"), or a
numeric errno. -/
inductive SockErr
  | str (msg : String)
  | code (errno : Nat)
  deriving DecidableEq, Repr

/-- The check why.args[0] in (EWOULDBLOCK, EAGAIN): true only for the
numeric errno of a would-block condition, never for a message string. -/
def isWouldBlock : SockErr → Bool
  | SockErr.str _ => false
  | SockErr.code e => e == EWOULDBLOCK || e == EAGAIN

/-- An entry of the error sink: AMQPConnectionError(why) wrapping the
underlying error. -/
structure AMQPConnectionError where
  why : SockErr
  deriving DecidableEq, Repr

/-- The argument of socket.error("connection/socket error") raised by the
code itself (missing socket, poller exceptional set, zero-byte send). -/
def connSockErr : SockErr := SockErr.str "connection/socket error"

/-- What the environment did in one iteration of the write_to_socket loop:
the poller reported not-ready, the poller readiness check itself raised
socket.error, send returned n bytes, send raised socket.timeout, or send
raised socket.error with the given first argument. -/
inductive WriteEvent
  | noReady
  | pollError
  | sent (n : Nat)
  | sendTimeout
  | sendError (why : SockErr)
  deriving DecidableEq, Repr

/-- Outcome of a write_to_socket call: normal return with the final cursor
after the whole buffer was written, silent return after a fatal error was
appended to the sink, the event trace ran out while the loop was still
retrying (recording cursor and sink at that point), or the append to a
missing sink raised. -/
inductive WriteResult
  | done (cursor : Nat) (sink : List AMQPConnectionError)
  | failed (sink : List AMQPConnectionError)
  | stuck (cursor : Nat) (sink : List AMQPConnectionError)
  | raised
  deriving DecidableEq, Repr

/-- The fatal branch of the except socket.error handler:
self._exceptions.append(AMQPConnectionError(why)) followed by return.
With no sink the append itself raises. -/
def fatalAppend (hasSink : Bool) (sink : List AMQPConnectionError)
    (why : SockErr) : WriteResult :=
  if hasSink then WriteResult.failed (sink ++ [⟨why⟩]) else WriteResult.raised

/-- The while total_bytes_written < bytes_to_send loop of
IO.write_to_socket, driven by an event trace.  Each iteration: return if
the cursor reached the length; raise socket.error (caught as fatal, its
argument being a string) if no socket; otherwise consume the next event:
not-ready continues, a poller error is fatal, send of 0 bytes is fatal,
send of n > 0 bytes advances the cursor, socket.timeout is ignored, a
would-block socket.error continues, any other socket.error is fatal. -/
def writeLoop (hasSocket hasSink : Bool) (len : Nat) :
    Nat → List WriteEvent → List AMQPConnectionError → WriteResult
  | cursor, events, sink =>
    if cursor < len then
      if hasSocket then
        match events with
        | [] => WriteResult.stuck cursor sink
        | WriteEvent.noReady :: rest =>
            writeLoop hasSocket hasSink len cursor rest sink
        | WriteEvent.pollError :: _ => fatalAppend hasSink sink connSockErr
        | WriteEvent.sent n :: rest =>
            if n = 0 then fatalAppend hasSink sink connSockErr
            else writeLoop hasSocket hasSink len (cursor + n) rest sink
        | WriteEvent.sendTimeout :: rest =>
            writeLoop hasSocket hasSink len cursor rest sink
        | WriteEvent.sendError why :: rest =>
            if isWouldBlock why then
              writeLoop hasSocket hasSink len cursor rest sink
            else fatalAppend hasSink sink why
      else fatalAppend hasSink sink connSockErr
    else WriteResult.done cursor sink

/-- IO.write_to_socket(frame_data): run the write loop from cursor 0 with
the length of the frame data. -/
def write_to_socket (hasSocket hasSink : Bool) (frame_data : List Nat)
    (events : List WriteEvent) (sink : List AMQPConnectionError) :
    WriteResult :=
  writeLoop hasSocket hasSink frame_data.length 0 events sink

/-- Events that the write loop absorbs without a fatal error: a not-ready
poll, a send timeout, a positive partial send, or a would-block send
error. -/
def transientOrProgress : WriteEvent → Bool
  | WriteEvent.noReady => true
  | WriteEvent.pollError => false
  | WriteEvent.sent n => decide (0 < n)
  | WriteEvent.sendTimeout => true
  | WriteEvent.sendError why => isWouldBlock why

/-- Events whose occurrence inside the loop is fatal: a poller error, a
zero-byte send, or a non-would-block send error. -/
def isFatalEvent : WriteEvent → Bool
  | WriteEvent.noReady => false
  | WriteEvent.pollError => true
  | WriteEvent.sent n => decide (n = 0)
  | WriteEvent.sendTimeout => false
  | WriteEvent.sendError why => !isWouldBlock why

/-- Each send in the trace hands back at most the number of bytes that
remain at that point (Python send never reports more bytes written than
the slice it was given). -/
def boundedFrom (len : Nat) : Nat → List WriteEvent → Bool
  | _, [] => true
  | cursor, WriteEvent.sent n :: rest =>
      decide (n ≤ len - cursor) && boundedFrom len (cursor + n) rest
  | cursor, WriteEvent.noReady :: rest => boundedFrom len cursor rest
  | cursor, WriteEvent.pollError :: rest => boundedFrom len cursor rest
  | cursor, WriteEvent.sendTimeout :: rest => boundedFrom len cursor rest
  | cursor, WriteEvent.sendError _ :: rest => boundedFrom len cursor rest

example : write_to_socket true true [1, 2, 3]
    [WriteEvent.sendTimeout, WriteEvent.sent 2,
     WriteEvent.sendError (SockErr.code 11), WriteEvent.sent 1] []
    = WriteResult.done 3 [] := by decide

example : write_to_socket true true [1, 2]
    [WriteEvent.sent 1, WriteEvent.sendError (SockErr.code 104)] []
    = WriteResult.failed [⟨SockErr.code 104⟩] := by decide

example : write_to_socket false true [1] [] []
    = WriteResult.failed [⟨connSockErr⟩] := by decide

example : write_to_socket false false [1] [] []
    = WriteResult.raised := by decide

example : write_to_socket false true [] [] [] = WriteResult.done 0 [] := by
  decide

/-- What the environment did in one call of IO._receive: recv returned a
chunk of bytes (possibly empty, on end of stream), recv raised
socket.timeout, or recv raised an IOError / OSError with the given first
argument. -/
inductive RecvEvent
  | data (bytes : List Nat)
  | timeout
  | ioError (why : SockErr)
  deriving DecidableEq, Repr

/-- Outcome of one IO._receive call: the bytes it returned together with
the sink and running flag afterwards, or the raised outcome when the
append to a missing sink raised. -/
inductive RecvResult
  | ok (bytes : List Nat) (sink : List AMQPConnectionError) (running : Bool)
  | raised
  deriving DecidableEq, Repr

/-- IO._receive: with no socket, raise socket.error("connection/socket
error"), which the IOError handler catches with a string first argument,
so it appends AMQPConnectionError and clears the running flag; with a
socket, return what recv produced, swallow socket.timeout returning the
empty buffer, swallow a would-block IOError, and on any other IOError
append AMQPConnectionError and clear the running flag before returning
the empty buffer. -/
def receive (hasSocket hasSink : Bool) (ev : RecvEvent)
    (sink : List AMQPConnectionError) (running : Bool) : RecvResult :=
  if hasSocket then
    match ev with
    | RecvEvent.data bs => RecvResult.ok bs sink running
    | RecvEvent.timeout => RecvResult.ok [] sink running
    | RecvEvent.ioError why =>
        if isWouldBlock why then RecvResult.ok [] sink running
        else if hasSink then RecvResult.ok [] (sink ++ [⟨why⟩]) false
        else RecvResult.raised
  else
    if hasSink then RecvResult.ok [] (sink ++ [⟨connSockErr⟩]) false
    else RecvResult.raised

/-- Receive events that the loop absorbs with no bytes, no sink entry and
no change to the running flag: socket.timeout and a would-block IOError. -/
def transientRecv : RecvEvent → Bool
  | RecvEvent.data _ => false
  | RecvEvent.timeout => true
  | RecvEvent.ioError why => isWouldBlock why

/-- A fatal receive situation: the socket reference is absent, or recv
raised an IOError / OSError that is not a would-block condition. -/
def fatalRecv (hasSocket : Bool) (ev : RecvEvent) : Bool :=
  !hasSocket ||
    (match ev with
     | RecvEvent.ioError why => !isWouldBlock why
     | _ => false)

/-- One iteration of the IO._process_incoming_data loop as seen by the
poller: either select reported no read readiness, or it reported
readiness and recv behaved as the recorded receive event. -/
inductive LoopEvent
  | notReady
  | ready (ev : RecvEvent)
  deriving DecidableEq, Repr

/-- Outcome of running the reader loop on a finite event trace: the
inbound buffer, sink and running flag when the trace ran out or the flag
was found cleared, or the raised outcome propagated from a receive whose
sink append raised. -/
inductive LoopResult
  | state (data : List Nat) (sink : List AMQPConnectionError)
      (running : Bool)
  | raised
  deriving DecidableEq, Repr

/-- IO._process_incoming_data: while the running flag is set, wait for
read readiness; when ready, extend the inbound buffer with what
IO._receive returned and replace the buffer by what the frame consumer
on_read makes of it.  A receive that clears the running flag still feeds
the consumer once before the loop condition is rechecked. -/
def process_incoming_data (onRead : List Nat → List Nat)
    (hasSocket hasSink : Bool) :
    List LoopEvent → List Nat → List AMQPConnectionError → Bool →
    LoopResult
  | events, data, sink, running =>
    if running then
      match events with
      | [] => LoopResult.state data sink true
      | LoopEvent.notReady :: rest =>
          process_incoming_data onRead hasSocket hasSink rest data sink true
      | LoopEvent.ready ev :: rest =>
          match receive hasSocket hasSink ev sink true with
          | RecvResult.raised => LoopResult.raised
          | RecvResult.ok bs s r =>
              process_incoming_data onRead hasSocket hasSink rest
                (onRead (data ++ bs)) s r
    else LoopResult.state data sink false

example : process_incoming_data (fun _ => []) true true
    [LoopEvent.ready (RecvEvent.data [1, 2]), LoopEvent.notReady,
     LoopEvent.ready (RecvEvent.data [3])] [] [] true
    = LoopResult.state [] [] true := by decide

example : process_incoming_data (fun b => b) true true
    [LoopEvent.ready (RecvEvent.ioError (SockErr.code 104))] [9] [] true
    = LoopResult.state [9] [⟨SockErr.code 104⟩] false := by decide

/-- The address family passed to getaddrinfo: AF_UNSPEC is the dual-stack
query, AF_INET the IPv4-only fallback. -/
inductive AddressFamily
  | af_unspec
  | af_inet
  deriving DecidableEq, Repr

/-- One record of the list getaddrinfo returns: the socket family used to
create the socket and the sockaddr handed to connect. -/
structure AddrInfo where
  family : AddressFamily
  sockaddr : String × Nat
  deriving DecidableEq, Repr

/-- IO._get_socket_addresses: query the resolver with AF_UNSPEC, or with
AF_INET when the platform has no IPv6 support; a resolver failure
(socket.gaierror) is re-raised as AMQPConnectionError(why) carrying the
resolver message. -/
def get_socket_addresses (has_ipv6 : Bool) (hostname : String) (port : Nat)
    (getaddrinfo : String → Nat → AddressFamily →
      Except String (List AddrInfo)) :
    Except AMQPConnectionError (List AddrInfo) :=
  let family := if has_ipv6 then AddressFamily.af_unspec
                else AddressFamily.af_inet
  match getaddrinfo hostname port family with
  | Except.error why => Except.error ⟨SockErr.str why⟩
  | Except.ok addresses => Except.ok addresses

/-- IO._find_address_and_connect with use_ssl disabled: create a socket
for each candidate in order and try to connect; an IOError / OSError from
connect moves on to the next candidate; the first success is returned;
when every candidate failed, raise AMQPConnectionError naming the
configured hostname and port.  connectOk records, per candidate, whether
the connect call succeeds. -/
def find_address_and_connect (connectOk : AddrInfo → Bool)
    (hostname : String) (port : Nat) :
    List AddrInfo → Except AMQPConnectionError AddrInfo
  | [] => Except.error
      ⟨SockErr.str ("Could not connect to " ++ hostname ++ ":"
        ++ toString port)⟩
  | a :: rest =>
      if connectOk a then Except.ok a
      else find_address_and_connect connectOk hostname port rest

/-- The connect phase of IO.open: resolve the candidates, then iterate
them; a resolution error propagates before any candidate is tried. -/
def open_connect_phase (has_ipv6 : Bool) (hostname : String) (port : Nat)
    (getaddrinfo : String → Nat → AddressFamily →
      Except String (List AddrInfo))
    (connectOk : AddrInfo → Bool) : Except AMQPConnectionError AddrInfo :=
  match get_socket_addresses has_ipv6 hostname port getaddrinfo with
  | Except.error e => Except.error e
  | Except.ok addresses =>
      find_address_and_connect connectOk hostname port addresses

/-- POLL_TIMEOUT = 0.1 seconds. -/
def POLL_TIMEOUT : Rat := 1 / 10

/-- The select argument tuples stored by Poller.__init__: rlist, wlist,
xlist and the timeout. -/
structure Poller where
  read : List Nat × List Nat × List Nat × Rat
  write : List Nat × List Nat × List Nat × Rat
  deriving DecidableEq, Repr

/-- Poller.__init__(fd): the read wait watches fd for readability only;
the write wait watches fd for readability, writability and exceptional
conditions; both use POLL_TIMEOUT. -/
def mkPoller (fd : Nat) : Poller :=
  ⟨([fd], [], [], POLL_TIMEOUT), ([fd], [fd], [fd], POLL_TIMEOUT)⟩

/-- The value select.select returns for given argument tuples: the ready
sublists rlist, wlist, xlist. -/
def SelectFn : Type :=
  List Nat × List Nat × List Nat × Rat → List Nat × List Nat × List Nat

/-- Poller.ready_to_write: run select on the write tuple; a non-empty
exceptional list raises socket.error("connection/socket error"),
otherwise the wlist is returned (truthy when non-empty). -/
def ready_to_write (select : SelectFn) (p : Poller) :
    Except SockErr (List Nat) :=
  let r := select p.write
  if r.2.2 = [] then Except.ok r.2.1 else Except.error connSockErr

/-- Poller.ready_to_read: run select on the read tuple and return the
rlist, with no exceptional-condition check. -/
def ready_to_read (select : SelectFn) (p : Poller) : List Nat :=
  (select p.read).1

/-- The fields of the IO object that close touches: the running flag, the
inbound thread, the socket and the poller (each reference possibly
absent). -/
structure IOState where
  running : Bool
  inbound_thread : Option Unit
  socket : Option Unit
  poller : Option Poller
  deriving DecidableEq, Repr

/-- What the socket shutdown / close pair did inside IO._close_socket:
completed, raised OSError, or raised socket.error. -/
inductive ShutdownEvent
  | ok
  | oserror
  | sockerror
  deriving DecidableEq, Repr

/-- The bare shutdown-then-close body before the exception handler. -/
def shutdown_and_close (ev : ShutdownEvent) : Except String Unit :=
  match ev with
  | ShutdownEvent.ok => Except.ok ()
  | ShutdownEvent.oserror => Except.error "OSError"
  | ShutdownEvent.sockerror => Except.error "socket.error"

/-- IO._close_socket: the except (OSError, socket.error): pass handler
swallows whatever shutdown / close raised. -/
def close_socket (ev : ShutdownEvent) : Except String Unit :=
  match shutdown_and_close ev with
  | Except.ok _ => Except.ok ()
  | Except.error _ => Except.ok ()

/-- The state close always leaves behind: flag cleared, every reference
set to None. -/
def closedState : IOState :=
  { running := false, inbound_thread := none, socket := none,
    poller := none }

/-- IO.close: clear the running flag, join the inbound thread when one
exists (the returned flag records whether the join happened), call
IO._close_socket when a socket exists, then clear the thread, poller and
socket references.  The Except layer records that an uncaught error from
the socket teardown would propagate; close_socket never produces one. -/
def close (st : IOState) (ev : ShutdownEvent) :
    Except String (IOState × Bool) :=
  let joined := st.inbound_thread.isSome
  match (if st.socket.isSome then close_socket ev else Except.ok ()) with
  | Except.error e => Except.error e
  | Except.ok _ => Except.ok (closedState, joined)

example : close ⟨true, some (), some (), some (mkPoller 3)⟩
    ShutdownEvent.oserror = Except.ok (closedState, true) := rfl

example : close closedState ShutdownEvent.sockerror
    = Except.ok (closedState, false) := rfl

/-! Step lemmas unfolding one iteration of the recursive functions. -/

@[simp]
lemma writeLoop_nil (hs hk : Bool) (len cursor : Nat)
    (sink : List AMQPConnectionError) :
    writeLoop hs hk len cursor [] sink =
      if cursor < len then
        (if hs then WriteResult.stuck cursor sink
         else fatalAppend hk sink connSockErr)
      else WriteResult.done cursor sink := rfl

@[simp]
lemma writeLoop_noReady (hs hk : Bool) (len cursor : Nat)
    (rest : List WriteEvent) (sink : List AMQPConnectionError) :
    writeLoop hs hk len cursor (WriteEvent.noReady :: rest) sink =
      if cursor < len then
        (if hs then writeLoop hs hk len cursor rest sink
         else fatalAppend hk sink connSockErr)
      else WriteResult.done cursor sink := rfl

@[simp]
lemma writeLoop_pollError (hs hk : Bool) (len cursor : Nat)
    (rest : List WriteEvent) (sink : List AMQPConnectionError) :
    writeLoop hs hk len cursor (WriteEvent.pollError :: rest) sink =
      if cursor < len then
        (if hs then fatalAppend hk sink connSockErr
         else fatalAppend hk sink connSockErr)
      else WriteResult.done cursor sink := rfl

@[simp]
lemma writeLoop_sent (hs hk : Bool) (len cursor n : Nat)
    (rest : List WriteEvent) (sink : List AMQPConnectionError) :
    writeLoop hs hk len cursor (WriteEvent.sent n :: rest) sink =
      if cursor < len then
        (if hs then
          (if n = 0 then fatalAppend hk sink connSockErr
           else writeLoop hs hk len (cursor + n) rest sink)
         else fatalAppend hk sink connSockErr)
      else WriteResult.done cursor sink := rfl

@[simp]
lemma writeLoop_sendTimeout (hs hk : Bool) (len cursor : Nat)
    (rest : List WriteEvent) (sink : List AMQPConnectionError) :
    writeLoop hs hk len cursor (WriteEvent.sendTimeout :: rest) sink =
      if cursor < len then
        (if hs then writeLoop hs hk len cursor rest sink
         else fatalAppend hk sink connSockErr)
      else WriteResult.done cursor sink := rfl

@[simp]
lemma writeLoop_sendError (hs hk : Bool) (len cursor : Nat)
    (why : SockErr) (rest : List WriteEvent)
    (sink : List AMQPConnectionError) :
    writeLoop hs hk len cursor (WriteEvent.sendError why :: rest) sink =
      if cursor < len then
        (if hs then
          (if isWouldBlock why then writeLoop hs hk len cursor rest sink
           else fatalAppend hk sink why)
         else fatalAppend hk sink connSockErr)
      else WriteResult.done cursor sink := rfl

@[simp]
lemma process_nil (onRead : List Nat → List Nat) (hs hk : Bool)
    (data : List Nat) (sink : List AMQPConnectionError) (running : Bool) :
    process_incoming_data onRead hs hk [] data sink running =
      if running then LoopResult.state data sink true
      else LoopResult.state data sink false := rfl

@[simp]
lemma process_notReady (onRead : List Nat → List Nat) (hs hk : Bool)
    (rest : List LoopEvent) (data : List Nat)
    (sink : List AMQPConnectionError) (running : Bool) :
    process_incoming_data onRead hs hk (LoopEvent.notReady :: rest) data
        sink running =
      if running then process_incoming_data onRead hs hk rest data sink true
      else LoopResult.state data sink false := rfl

@[simp]
lemma process_ready (onRead : List Nat → List Nat) (hs hk : Bool)
    (ev : RecvEvent) (rest : List LoopEvent) (data : List Nat)
    (sink : List AMQPConnectionError) (running : Bool) :
    process_incoming_data onRead hs hk (LoopEvent.ready ev :: rest) data
        sink running =
      if running then
        (match receive hs hk ev sink true with
         | RecvResult.raised => LoopResult.raised
         | RecvResult.ok bs s r =>
             process_incoming_data onRead hs hk rest (onRead (data ++ bs))
               s r)
      else LoopResult.state data sink false := rfl

/-! Auxiliary invariants of the write loop. -/

/-- With a socket present and only transient or positive bounded sends in
the trace, the write loop never records an error: it either finishes with
the cursor exactly at the length and the sink untouched, or runs out of
trace still mid-buffer with the sink untouched. -/
lemma writeLoop_transient_aux (hk : Bool) (len : Nat) :
    ∀ (events : List WriteEvent) (cursor : Nat)
      (sink : List AMQPConnectionError),
      (∀ e ∈ events, transientOrProgress e = true) →
      boundedFrom len cursor events = true →
      cursor ≤ len →
      writeLoop true hk len cursor events sink = WriteResult.done len sink ∨
      ∃ c, c < len ∧
        writeLoop true hk len cursor events sink
          = WriteResult.stuck c sink := by
  intro events
  induction events with
  | nil =>
    intro cursor sink _ _ hle
    by_cases h : cursor < len
    · exact Or.inr ⟨cursor, h, by simp [h]⟩
    · have : cursor = len := Nat.le_antisymm hle (Nat.le_of_not_lt h)
      subst this
      exact Or.inl (by simp [h])
  | cons e rest ih =>
    intro cursor sink hgood hb hle
    by_cases h : cursor < len
    · have hgoodrest : ∀ x ∈ rest, transientOrProgress x = true :=
        fun x hx => hgood x (List.mem_cons_of_mem e hx)
      have hgoode : transientOrProgress e = true :=
        hgood e (List.mem_cons_self e rest)
      cases e with
      | noReady =>
        simp only [writeLoop_noReady, if_pos h, if_pos trivial, if_true]
        exact ih cursor sink hgoodrest (by simpa [boundedFrom] using hb) hle
      | pollError => simp [transientOrProgress] at hgoode
      | sent n =>
        have hn : 0 < n := by
          simpa [transientOrProgress] using hgoode
        have hb2 : n ≤ len - cursor ∧
            boundedFrom len (cursor + n) rest = true := by
          simpa [boundedFrom] using hb
        have hne : ¬n = 0 := Nat.pos_iff_ne_zero.mp hn
        simp only [writeLoop_sent, if_pos h, if_true, if_neg hne]
        exact ih (cursor + n) sink hgoodrest hb2.2 (by omega)
      | sendTimeout =>
        simp only [writeLoop_sendTimeout, if_pos h, if_true]
        exact ih cursor sink hgoodrest (by simpa [boundedFrom] using hb) hle
      | sendError why =>
        have hwb : isWouldBlock why = true := by
          simpa [transientOrProgress] using hgoode
        simp only [writeLoop_sendError, if_pos h, if_true, if_pos hwb]
        exact ih cursor sink hgoodrest (by simpa [boundedFrom] using hb) hle
    · have : cursor = len := Nat.le_antisymm hle (Nat.le_of_not_lt h)
      subst this
      exact Or.inl (by cases e <;> simp [h])

/-- A stuck outcome means the trace ran out strictly mid-buffer and the
sink was never touched. -/
lemma writeLoop_stuck_inv (hs hk : Bool) (len : Nat) :
    ∀ (events : List WriteEvent) (cursor : Nat)
      (sink s : List AMQPConnectionError) (c : Nat),
      writeLoop hs hk len cursor events sink = WriteResult.stuck c s →
      c < len ∧ s = sink := by
  intro events
  induction events with
  | nil =>
    intro cursor sink s c h
    by_cases hlt : cursor < len
    · cases hs with
      | false =>
        simp only [writeLoop_nil, if_pos hlt, fatalAppend] at h
        cases hk <;> simp at h
      | true =>
        simp only [writeLoop_nil, if_pos hlt, if_true] at h
        cases h
        exact ⟨hlt, rfl⟩
    · simp [hlt] at h
  | cons e rest ih =>
    intro cursor sink s c h
    by_cases hlt : cursor < len
    · cases hs with
      | false =>
        cases e <;>
          simp only [writeLoop_nil, writeLoop_noReady, writeLoop_pollError,
            writeLoop_sent, writeLoop_sendTimeout, writeLoop_sendError,
            if_pos hlt, fatalAppend, Bool.false_eq_true, if_false] at h <;>
          cases hk <;> simp at h
      | true =>
        cases e with
        | noReady =>
          simp only [writeLoop_noReady, if_pos hlt, if_true] at h
          exact ih cursor sink s c h
        | pollError =>
          simp only [writeLoop_pollError, if_pos hlt, if_true,
            fatalAppend] at h
          cases hk <;> simp at h
        | sent n =>
          simp only [writeLoop_sent, if_pos hlt, if_true] at h
          by_cases hn : n = 0
          · rw [if_pos hn] at h
            simp only [fatalAppend] at h
            cases hk <;> simp at h
          · rw [if_neg hn] at h
            exact ih (cursor + n) sink s c h
        | sendTimeout =>
          simp only [writeLoop_sendTimeout, if_pos hlt, if_true] at h
          exact ih cursor sink s c h
        | sendError why =>
          simp only [writeLoop_sendError, if_pos hlt, if_true] at h
          by_cases hwb : isWouldBlock why
          · rw [if_pos hwb] at h
            exact ih cursor sink s c h
          · rw [if_neg hwb] at h
            simp only [fatalAppend] at h
            cases hk <;> simp at h
    · cases e <;> simp [hlt] at h

/-- Extending the trace of a stuck run continues the loop from the
recorded cursor and sink. -/
lemma writeLoop_extend (hs hk : Bool) (len : Nat) :
    ∀ (pre post : List WriteEvent) (cursor : Nat)
      (sink s : List AMQPConnectionError) (c : Nat),
      writeLoop hs hk len cursor pre sink = WriteResult.stuck c s →
      writeLoop hs hk len cursor (pre ++ post) sink
        = writeLoop hs hk len c post s := by
  intro pre
  induction pre with
  | nil =>
    intro post cursor sink s c h
    by_cases hlt : cursor < len
    · cases hs with
      | false =>
        simp only [writeLoop_nil, if_pos hlt, fatalAppend] at h
        cases hk <;> simp at h
      | true =>
        simp only [writeLoop_nil, if_pos hlt, if_true] at h
        cases h
        simp
    · simp [hlt] at h
  | cons e rest ih =>
    intro post cursor sink s c h
    by_cases hlt : cursor < len
    · cases hs with
      | false =>
        cases e <;>
          simp only [writeLoop_nil, writeLoop_noReady, writeLoop_pollError,
            writeLoop_sent, writeLoop_sendTimeout, writeLoop_sendError,
            if_pos hlt, fatalAppend, Bool.false_eq_true, if_false] at h <;>
          cases hk <;> simp at h
      | true =>
        cases e with
        | noReady =>
          simp only [writeLoop_noReady, if_pos hlt, if_true] at h
          simpa only [List.cons_append, writeLoop_noReady, if_pos hlt,
            if_true] using ih post cursor sink s c h
        | pollError =>
          simp only [writeLoop_pollError, if_pos hlt, if_true,
            fatalAppend] at h
          cases hk <;> simp at h
        | sent n =>
          simp only [writeLoop_sent, if_pos hlt, if_true] at h
          by_cases hn : n = 0
          · rw [if_pos hn] at h
            simp only [fatalAppend] at h
            cases hk <;> simp at h
          · rw [if_neg hn] at h
            simpa only [List.cons_append, writeLoop_sent, if_pos hlt,
              if_true, if_neg hn] using ih post (cursor + n) sink s c h
        | sendTimeout =>
          simp only [writeLoop_sendTimeout, if_pos hlt, if_true] at h
          simpa only [List.cons_append, writeLoop_sendTimeout, if_pos hlt,
            if_true] using ih post cursor sink s c h
        | sendError why =>
          simp only [writeLoop_sendError, if_pos hlt, if_true] at h
          by_cases hwb : isWouldBlock why
          · rw [if_pos hwb] at h
            simpa only [List.cons_append, writeLoop_sendError, if_pos hlt,
              if_true, if_pos hwb] using ih post cursor sink s c h
          · rw [if_neg hwb] at h
            simp only [fatalAppend] at h
            cases hk <;> simp at h
    · cases e <;> simp [hlt] at h

/-- A fatal event mid-buffer appends exactly one sink entry and returns,
consuming none of the later events. -/
lemma writeLoop_fatal_step (len cursor : Nat) (f : WriteEvent)
    (post : List WriteEvent) (sink : List AMQPConnectionError)
    (hlt : cursor < len) (hf : isFatalEvent f = true) :
    ∃ entry, writeLoop true true len cursor (f :: post) sink
      = WriteResult.failed (sink ++ [entry]) := by
  cases f with
  | noReady => simp [isFatalEvent] at hf
  | pollError =>
    exact ⟨⟨connSockErr⟩, by simp [hlt, fatalAppend]⟩
  | sent n =>
    have hn : n = 0 := by simpa [isFatalEvent] using hf
    exact ⟨⟨connSockErr⟩, by simp [hlt, hn, fatalAppend]⟩
  | sendTimeout => simp [isFatalEvent] at hf
  | sendError why =>
    have hwb : isWouldBlock why = false := by
      simpa [isFatalEvent] using hf
    exact ⟨⟨why⟩, by simp [hlt, hwb, fatalAppend]⟩

/-! The claims. -/

/-- Claim C1: a write_to_socket call on a non-empty buffer with an
existing socket, in which every event is a readiness retry, a send
timeout, a would-block send error, or a positive send bounded by the
remaining slice, returns normally only once the cursor equals the buffer
length, and never appends to the error sink; while the trace has not yet
delivered the whole buffer the loop is still retrying with the sink
untouched. -/
theorem write_to_socket_transient_completes (hasSink : Bool)
    (frame_data : List Nat) (events : List WriteEvent)
    (sink : List AMQPConnectionError)
    (hne : frame_data ≠ [])
    (hgood : ∀ e ∈ events, transientOrProgress e = true)
    (hb : boundedFrom frame_data.length 0 events = true) :
    write_to_socket true hasSink frame_data events sink
      = WriteResult.done frame_data.length sink ∨
    ∃ c, c < frame_data.length ∧
      write_to_socket true hasSink frame_data events sink
        = WriteResult.stuck c sink :=
  writeLoop_transient_aux hasSink frame_data.length events 0 sink hgood hb
    (Nat.zero_le _)

/-- Witness for claim C1 at a concrete trace: a timeout, a partial send
of two bytes, a would-block error and a final one-byte send complete a
three-byte buffer with an empty sink. -/
theorem write_to_socket_transient_completes_witness :
    write_to_socket true true [1, 2, 3]
      [WriteEvent.sendTimeout, WriteEvent.sent 2,
       WriteEvent.sendError (SockErr.code 11), WriteEvent.sent 1] []
      = WriteResult.done ([1, 2, 3] : List Nat).length [] ∨
    ∃ c, c < ([1, 2, 3] : List Nat).length ∧
      write_to_socket true true [1, 2, 3]
        [WriteEvent.sendTimeout, WriteEvent.sent 2,
         WriteEvent.sendError (SockErr.code 11), WriteEvent.sent 1] []
        = WriteResult.stuck c [] :=
  write_to_socket_transient_completes true [1, 2, 3]
    [WriteEvent.sendTimeout, WriteEvent.sent 2,
     WriteEvent.sendError (SockErr.code 11), WriteEvent.sent 1] []
    (by decide) (by decide) (by decide)

/-- Claim C3: a write_to_socket call on a non-empty buffer that hits a
fatal condition — no socket at all, or, after a prefix of events that
leaves the loop still mid-buffer, a poller error, a zero-byte send or a
non-would-block send error — returns silently with exactly one
AMQPConnectionError appended to the sink, ignoring every event after the
fatal one. -/
theorem write_to_socket_fatal_appends_once (hasSocket : Bool)
    (frame_data : List Nat) (pre post : List WriteEvent) (f : WriteEvent)
    (sink : List AMQPConnectionError) (c : Nat)
    (hne : frame_data ≠ [])
    (hcase : hasSocket = false ∨
      (hasSocket = true ∧ isFatalEvent f = true ∧
        writeLoop true true frame_data.length 0 pre sink
          = WriteResult.stuck c sink)) :
    ∃ entry,
      write_to_socket hasSocket true frame_data (pre ++ f :: post) sink
        = WriteResult.failed (sink ++ [entry]) := by
  have hlen : 0 < frame_data.length := List.length_pos.mpr hne
  rcases hcase with hs | ⟨hs, hf, hstuck⟩
  · subst hs
    refine ⟨⟨connSockErr⟩, ?_⟩
    unfold write_to_socket
    cases hpre : pre ++ f :: post with
    | nil => simp at hpre
    | cons x xs => cases x <;> simp [hlen, fatalAppend]
  · subst hs
    have hc := (writeLoop_stuck_inv true true frame_data.length pre 0 sink
      sink c hstuck).1
    have hext := writeLoop_extend true true frame_data.length pre
      (f :: post) 0 sink sink c hstuck
    unfold write_to_socket
    rw [hext]
    exact writeLoop_fatal_step frame_data.length c f post sink hc hf

/-- Witness for claim C3 at a concrete trace: after one byte of a
two-byte buffer is sent, a connection-reset send error ends the call with
one sink entry, with a further send event left unconsumed. -/
theorem write_to_socket_fatal_appends_once_witness :
    ∃ entry,
      write_to_socket true true [7, 7]
        ([WriteEvent.sent 1] ++ WriteEvent.sendError (SockErr.code 104)
          :: [WriteEvent.sent 1]) []
        = WriteResult.failed ([] ++ [entry]) :=
  write_to_socket_fatal_appends_once true [7, 7] [WriteEvent.sent 1]
    [WriteEvent.sent 1] (WriteEvent.sendError (SockErr.code 104)) [] 1
    (by decide) (Or.inr ⟨rfl, by decide, by decide⟩)

/-- Claim C9: write_to_socket on an empty buffer returns at once — no
send, no readiness wait, no sink entry — whether or not a socket exists,
because the loop body with its no-socket check is never entered. -/
theorem write_to_socket_empty (hasSocket hasSink : Bool)
    (events : List WriteEvent) (sink : List AMQPConnectionError) :
    write_to_socket hasSocket hasSink [] events sink
      = WriteResult.done 0 sink := by
  cases events with
  | nil => rfl
  | cons e rest => cases e <;> rfl

/-- Claim C2: one call of the receive step.  A transient read
(socket.timeout, or a would-block IOError) returns the empty buffer,
appends nothing and leaves the running flag set; a fatal read (any other
IOError, or an absent socket) returns the empty buffer with exactly one
AMQPConnectionError appended and the running flag cleared; and clearing
the flag happens only on the fatal path — any call that comes back with
the flag cleared was fatal. -/
theorem receive_transient_and_fatal (ev : RecvEvent)
    (sink : List AMQPConnectionError) :
    (transientRecv ev = true →
      receive true true ev sink true = RecvResult.ok [] sink true) ∧
    (∀ hasSocket : Bool, fatalRecv hasSocket ev = true →
      ∃ entry, receive hasSocket true ev sink true
        = RecvResult.ok [] (sink ++ [entry]) false) ∧
    (∀ (hasSocket : Bool) (bs : List Nat)
        (s : List AMQPConnectionError),
      receive hasSocket true ev sink true = RecvResult.ok bs s false →
      fatalRecv hasSocket ev = true) := by
  refine ⟨?_, ?_, ?_⟩
  · intro ht
    cases ev with
    | data bs => simp [transientRecv] at ht
    | timeout => rfl
    | ioError why =>
      have hwb : isWouldBlock why = true := by
        simpa [transientRecv] using ht
      simp [receive, hwb]
  · intro hasSocket hf
    cases hasSocket with
    | false => exact ⟨⟨connSockErr⟩, by simp [receive]⟩
    | true =>
      cases ev with
      | data bs => simp [fatalRecv] at hf
      | timeout => simp [fatalRecv] at hf
      | ioError why =>
        have hwb : isWouldBlock why = false := by
          simpa [fatalRecv] using hf
        exact ⟨⟨why⟩, by simp [receive, hwb]⟩
  · intro hasSocket bs s h
    cases hasSocket with
    | false => simp [fatalRecv]
    | true =>
      cases ev with
      | data b => simp [receive] at h
      | timeout => simp [receive] at h
      | ioError why =>
        by_cases hwb : isWouldBlock why
        · simp [receive, hwb] at h
        · simp [fatalRecv, hwb]

/-- Witness for claim C2 at concrete events: a would-block read leaves
everything unchanged, and a connection-reset read appends one entry and
clears the flag. -/
theorem receive_transient_and_fatal_witness :
    receive true true (RecvEvent.ioError (SockErr.code 11)) [] true
      = RecvResult.ok [] [] true ∧
    ∃ entry,
      receive true true (RecvEvent.ioError (SockErr.code 104)) [] true
        = RecvResult.ok [] ([] ++ [entry]) false :=
  ⟨(receive_transient_and_fatal (RecvEvent.ioError (SockErr.code 11))
      []).1 (by decide),
   (receive_transient_and_fatal (RecvEvent.ioError (SockErr.code 104))
      []).2.1 true (by decide)⟩

/-- With a frame consumer that always hands back the empty remainder, the
inbound buffer starting empty is empty again whenever the loop stops. -/
lemma process_empty_consumer_aux (onRead : List Nat → List Nat)
    (hs hk : Bool) (honRead : ∀ b, onRead b = []) :
    ∀ (events : List LoopEvent) (sink : List AMQPConnectionError)
      (running : Bool) (data : List Nat)
      (s : List AMQPConnectionError) (r : Bool),
      process_incoming_data onRead hs hk events [] sink running
        = LoopResult.state data s r → data = [] := by
  intro events
  induction events with
  | nil =>
    intro sink running data s r h
    cases running <;> simp only [process_nil, if_true, if_false,
      Bool.false_eq_true] at h <;> exact (LoopResult.state.inj h).1.symm
  | cons e rest ih =>
    intro sink running data s r h
    cases running with
    | false =>
      cases e <;> simp only [process_notReady, process_ready,
        Bool.false_eq_true, if_false] at h <;>
        exact (LoopResult.state.inj h).1.symm
    | true =>
      cases e with
      | notReady =>
        simp only [process_notReady, if_true] at h
        exact ih sink true data s r h
      | ready ev =>
        simp only [process_ready, if_true] at h
        cases hrecv : receive hs hk ev sink true with
        | raised => rw [hrecv] at h; cases h
        | ok bs s2 r2 =>
          rw [hrecv] at h
          simp only [List.nil_append, honRead] at h
          exact ih s2 r2 data s r h

/-- Claim C4: in every read-ready iteration of the reader loop the new
buffer is the frame consumer applied to the old buffer concatenated with
the received bytes, and that value is exactly what the next iteration
carries; hence a consumer that always returns the empty remainder keeps
the buffer empty whatever the trace. -/
theorem process_incoming_buffer (onRead : List Nat → List Nat)
    (hasSocket hasSink : Bool) :
    (∀ (ev : RecvEvent) (rest : List LoopEvent) (data : List Nat)
        (sink s : List AMQPConnectionError) (bs : List Nat) (r : Bool),
      receive hasSocket hasSink ev sink true = RecvResult.ok bs s r →
      process_incoming_data onRead hasSocket hasSink
          (LoopEvent.ready ev :: rest) data sink true
        = process_incoming_data onRead hasSocket hasSink rest
            (onRead (data ++ bs)) s r) ∧
    ((∀ b, onRead b = []) →
      ∀ (events : List LoopEvent) (sink : List AMQPConnectionError)
        (data : List Nat) (s : List AMQPConnectionError) (r : Bool),
      process_incoming_data onRead hasSocket hasSink events [] sink true
        = LoopResult.state data s r → data = []) := by
  constructor
  · intro ev rest data sink s bs r hrecv
    simp only [process_ready, if_true, hrecv]
  · intro honRead events sink data s r h
    exact process_empty_consumer_aux onRead hasSocket hasSink honRead
      events sink true data s r h

/-- Witness for claim C4 at a concrete iteration: three received bytes
pass through an identity consumer into the carried buffer, and the
always-empty consumer leaves the buffer empty over a two-read trace. -/
theorem process_incoming_buffer_witness :
    process_incoming_data (fun b => b) true true
        [LoopEvent.ready (RecvEvent.data [4, 5, 6])] [1] [] true
      = process_incoming_data (fun b => b) true true []
          ((fun b => b) ([1] ++ [4, 5, 6])) [] true ∧
    ([] : List Nat) = [] :=
  ⟨(process_incoming_buffer (fun b => b) true true).1
      (RecvEvent.data [4, 5, 6]) [] [1] [] [] [4, 5, 6] true rfl,
   (process_incoming_buffer (fun _ => []) true true).2 (fun _ => rfl)
      [LoopEvent.ready (RecvEvent.data [1]),
       LoopEvent.ready (RecvEvent.data [2])] [] [] [] true (by decide)⟩

/-- Claim C10: when the IO object was constructed with its error-sink
argument left as None, reaching a sink append does not return silently:
write_to_socket with no socket raises, a fatal event inside the write
loop raises, and a fatal receive raises. -/
theorem no_sink_append_raises :
    (∀ (frame_data : List Nat) (events : List WriteEvent)
        (sink : List AMQPConnectionError), frame_data ≠ [] →
      write_to_socket false false frame_data events sink
        = WriteResult.raised) ∧
    (∀ (len cursor : Nat) (f : WriteEvent) (rest : List WriteEvent)
        (sink : List AMQPConnectionError), cursor < len →
      isFatalEvent f = true →
      writeLoop true false len cursor (f :: rest) sink
        = WriteResult.raised) ∧
    (∀ (hasSocket : Bool) (ev : RecvEvent)
        (sink : List AMQPConnectionError) (running : Bool),
      fatalRecv hasSocket ev = true →
      receive hasSocket false ev sink running = RecvResult.raised) := by
  refine ⟨?_, ?_, ?_⟩
  · intro frame_data events sink hne
    have hlen : 0 < frame_data.length := List.length_pos.mpr hne
    unfold write_to_socket
    cases events with
    | nil => simp [hlen, fatalAppend]
    | cons e rest => cases e <;> simp [hlen, fatalAppend]
  · intro len cursor f rest sink hlt hf
    cases f with
    | noReady => simp [isFatalEvent] at hf
    | pollError => simp [hlt, fatalAppend]
    | sent n =>
      have hn : n = 0 := by simpa [isFatalEvent] using hf
      simp [hlt, hn, fatalAppend]
    | sendTimeout => simp [isFatalEvent] at hf
    | sendError why =>
      have hwb : isWouldBlock why = false := by
        simpa [isFatalEvent] using hf
      simp [hlt, hwb, fatalAppend]
  · intro hasSocket ev sink running hf
    cases hasSocket with
    | false => simp [receive]
    | true =>
      cases ev with
      | data bs => simp [fatalRecv] at hf
      | timeout => simp [fatalRecv] at hf
      | ioError why =>
        have hwb : isWouldBlock why = false := by
          simpa [fatalRecv] using hf
        simp [receive, hwb]

/-- Witness for claim C10 at concrete inputs: every sink-append path with
a missing sink ends in the raised outcome. -/
theorem no_sink_append_raises_witness :
    write_to_socket false false [1] [] [] = WriteResult.raised ∧
    writeLoop true false 1 0 [WriteEvent.pollError] []
      = WriteResult.raised ∧
    receive true false (RecvEvent.ioError (SockErr.code 104)) [] true
      = RecvResult.raised :=
  ⟨no_sink_append_raises.1 [1] [] [] (by decide),
   no_sink_append_raises.2.1 1 0 WriteEvent.pollError [] [] (by decide)
     (by decide),
   no_sink_append_raises.2.2 true (RecvEvent.ioError (SockErr.code 104))
     [] true (by decide)⟩

/-- Claim C5: the connect iteration returns the first candidate in
resolver order whose connect succeeds, skipping earlier failures without
surfacing them, and when every candidate fails it raises an
AMQPConnectionError naming the configured hostname and port. -/
theorem find_address_first_success (connectOk : AddrInfo → Bool)
    (hostname : String) (port : Nat) (addresses : List AddrInfo) :
    (∀ a : AddrInfo, addresses.find? connectOk = some a →
      find_address_and_connect connectOk hostname port addresses
        = Except.ok a) ∧
    ((∀ a ∈ addresses, connectOk a = false) →
      find_address_and_connect connectOk hostname port addresses
        = Except.error
            ⟨SockErr.str ("Could not connect to " ++ hostname ++ ":"
              ++ toString port)⟩) := by
  induction addresses with
  | nil =>
    exact ⟨fun a h => by simp at h, fun _ => rfl⟩
  | cons x xs ih =>
    constructor
    · intro a h
      by_cases hx : connectOk x
      · rw [List.find?_cons_of_pos _ hx] at h
        cases h
        simp [find_address_and_connect, hx]
      · rw [List.find?_cons_of_neg _ hx] at h
        simp only [find_address_and_connect, hx, Bool.false_eq_true,
          if_false]
        exact ih.1 a h
    · intro hall
      have hx : connectOk x = false := hall x (List.mem_cons_self x xs)
      simp only [find_address_and_connect, hx, Bool.false_eq_true,
        if_false]
      exact ih.2 fun a ha => hall a (List.mem_cons_of_mem x ha)

/-- Witness for claim C5 at a concrete candidate list: the second
candidate is the first to connect and is returned; a list whose two
candidates both fail produces the hostname-and-port error. -/
theorem find_address_first_success_witness :
    find_address_and_connect (fun a => a.sockaddr.1 == "10.0.0.2")
        "rabbit" 5672
        [⟨AddressFamily.af_inet, ("10.0.0.1", 5672)⟩,
         ⟨AddressFamily.af_inet, ("10.0.0.2", 5672)⟩]
      = Except.ok ⟨AddressFamily.af_inet, ("10.0.0.2", 5672)⟩ ∧
    find_address_and_connect (fun _ => false) "rabbit" 5672
        [⟨AddressFamily.af_inet, ("10.0.0.1", 5672)⟩,
         ⟨AddressFamily.af_inet, ("10.0.0.2", 5672)⟩]
      = Except.error
          ⟨SockErr.str ("Could not connect to " ++ "rabbit" ++ ":"
            ++ toString 5672)⟩ :=
  ⟨(find_address_first_success (fun a => a.sockaddr.1 == "10.0.0.2")
      "rabbit" 5672
      [⟨AddressFamily.af_inet, ("10.0.0.1", 5672)⟩,
       ⟨AddressFamily.af_inet, ("10.0.0.2", 5672)⟩]).1
      ⟨AddressFamily.af_inet, ("10.0.0.2", 5672)⟩ (by decide),
   (find_address_first_success (fun _ => false) "rabbit" 5672
      [⟨AddressFamily.af_inet, ("10.0.0.1", 5672)⟩,
       ⟨AddressFamily.af_inet, ("10.0.0.2", 5672)⟩]).2
      (fun _ _ => rfl)⟩

/-- Claim C6: address resolution queries the resolver with the dual-stack
family AF_UNSPEC when the platform has IPv6 support and with AF_INET
otherwise, and when that query fails the connect phase of open fails with
an AMQPConnectionError carrying the resolver message, for every possible
connect behaviour — no candidate is attempted. -/
theorem resolution_failure_propagates (has_ipv6 : Bool)
    (hostname : String) (port : Nat)
    (getaddrinfo : String → Nat → AddressFamily →
      Except String (List AddrInfo))
    (connectOk : AddrInfo → Bool) (msg : String)
    (hres : getaddrinfo hostname port
        (if has_ipv6 then AddressFamily.af_unspec
         else AddressFamily.af_inet)
      = Except.error msg) :
    open_connect_phase has_ipv6 hostname port getaddrinfo connectOk
      = Except.error ⟨SockErr.str msg⟩ := by
  unfold open_connect_phase get_socket_addresses
  simp only [hres]

/-- Witness for claim C6 with a concrete failing resolver: the message
comes through untouched and the always-connecting candidate behaviour is
never consulted. -/
theorem resolution_failure_propagates_witness :
    open_connect_phase true "rabbit" 5672
        (fun _ _ _ => Except.error "Name or service not known")
        (fun _ => true)
      = Except.error ⟨SockErr.str "Name or service not known"⟩ :=
  resolution_failure_propagates true "rabbit" 5672
    (fun _ _ _ => Except.error "Name or service not known")
    (fun _ => true) "Name or service not known" rfl

/-- Claim C7: on the write wait a non-empty exceptional set raises
socket.error at once, otherwise the writable list is returned; the read
wait returns the readable list with no exceptional check at all; and both
waits carry the fixed POLL_TIMEOUT. -/
theorem poller_readiness (select : SelectFn) (fd : Nat) :
    ((select (mkPoller fd).write).2.2 ≠ [] →
      ready_to_write select (mkPoller fd) = Except.error connSockErr) ∧
    ((select (mkPoller fd).write).2.2 = [] →
      ready_to_write select (mkPoller fd)
        = Except.ok (select (mkPoller fd).write).2.1) ∧
    ready_to_read select (mkPoller fd) = (select (mkPoller fd).read).1 ∧
    (mkPoller fd).read.2.2.2 = POLL_TIMEOUT ∧
    (mkPoller fd).write.2.2.2 = POLL_TIMEOUT := by
  refine ⟨?_, ?_, rfl, rfl, rfl⟩
  · intro hx
    simp [ready_to_write, hx]
  · intro hx
    simp [ready_to_write, hx]

/-- Witness for claim C7 with concrete select outcomes: an exceptional
condition on the write wait raises, an exception-free write wait returns
the writable list. -/
theorem poller_readiness_witness :
    ready_to_write (fun _ => ([], [], [5])) (mkPoller 5)
      = Except.error connSockErr ∧
    ready_to_write (fun _ => ([], [7], [])) (mkPoller 7)
      = Except.ok ((fun _ => (([], [7], []) :
          List Nat × List Nat × List Nat)) (mkPoller 7).write).2.1 :=
  ⟨(poller_readiness (fun _ => ([], [], [5])) 5).1 (by decide),
   (poller_readiness (fun _ => ([], [7], [])) 7).2.1 rfl⟩

/-- Claim C8: close never raises for any starting state — the teardown
errors are swallowed — and always leaves the running flag cleared and the
thread, socket and poller references set to None, joining the inbound
thread exactly when one exists; run on an already-closed state it returns
the same cleared state again, so close is idempotent. -/
theorem close_idempotent_clears (st : IOState) (ev : ShutdownEvent) :
    close st ev = Except.ok (closedState, st.inbound_thread.isSome) ∧
    closedState.running = false ∧
    closedState.inbound_thread = none ∧
    closedState.socket = none ∧
    closedState.poller = none ∧
    (∀ ev2 : ShutdownEvent,
      close closedState ev2 = Except.ok (closedState, false)) := by
  refine ⟨?_, rfl, rfl, rfl, rfl, fun ev2 => by cases ev2 <;> rfl⟩
  cases hsock : st.socket <;> cases ev <;>
    simp [close, close_socket, shutdown_and_close, hsock]

end AMQP
